import Mathlib

/-!
Verification of the opportunity-analysis engine of the BitcoinATM-finder
repository (`analyzer.py`), shallowly embedded in Lean 4.

Python `dict.get` records are modelled as structures with `Option` fields;
Python floats are modelled as rationals, with `WithTop ℚ` for distances so
that `⊤` plays the role of `float('inf')`; the third-party `geodesic`
library call is an explicit parameter `geo` whose `Except` result models the
possibility of the underlying computation raising (caught by the caller).
Python truthiness on numbers (`0.0` is falsy) and strings (`""` is falsy) is
modelled explicitly.
-/

/-- The external great-circle primitive (`geopy.distance.geodesic(..).kilometers`).
It is a parameter of the development; `.error ()` models the call raising. -/
abbrev Geo := ℚ → ℚ → ℚ → ℚ → Except Unit ℚ

/-- A candidate business record (`locations` entries), fields per the keys read
by `analyzer.py`; `none` models an absent or null key. -/
structure Location where
  business_name : Option String := none
  address : Option String := none
  phone : Option String := none
  business_type : Option String := none
  latitude : Option ℚ := none
  longitude : Option ℚ := none
  google_rating : Option ℚ := none
  deriving DecidableEq, Repr

/-- An existing-ATM record (`atm_locations` entries). -/
structure Atm where
  location_name : Option String := none
  address : Option String := none
  operator : Option String := none
  latitude : Option ℚ := none
  longitude : Option ℚ := none
  deriving DecidableEq, Repr

/-- Python truthiness of an optional number: absent and `0.0` are falsy. -/
def truthyQ : Option ℚ → Bool
  | none => false
  | some q => q != 0

/-- Python `d.get(key, "")`: an absent string key defaults to the empty string. -/
def strD (o : Option String) : String := o.getD ""

/-- Python's `str.lower()` (ASCII case folding, applied code point wise). -/
def pyLower (s : String) : String := ⟨s.data.map Char.toLower⟩

/-- Python's `str.strip()`: remove leading and trailing whitespace. -/
def pyStrip (s : String) : String :=
  ⟨((s.data.dropWhile Char.isWhitespace).reverse.dropWhile Char.isWhitespace).reverse⟩

/-- Python's substring test `needle in hay` (over code points). -/
def substrB (needle hay : String) : Bool :=
  let n := needle.toList
  let h := hay.toList
  (List.range (h.length + 1)).any (fun i => (h.drop i).take n.length == n)

/-- Helper of `pySplitWs`: split on whitespace runs, carrying the current
word reversed. -/
def wordsAux : List Char → List Char → List String
  | [], acc => if acc.isEmpty then [] else [⟨acc.reverse⟩]
  | c :: cs, acc =>
    if c.isWhitespace then
      if acc.isEmpty then wordsAux cs [] else ⟨acc.reverse⟩ :: wordsAux cs []
    else wordsAux cs (c :: acc)

/-- Python's `str.split()` with no argument: split on whitespace runs,
discarding empty tokens. -/
def pySplitWs (s : String) : List String := wordsAux s.data []

/-- The generic stopwords removed before the shared-word count
(`{"the", "a", "of", "and", "&", "store", "shop"}`). -/
def stopwords : List String := ["the", "a", "of", "and", "&", "store", "shop"]

/-- The set of significant words of a (lowercased) name:
`set(name.split()) - stopwords`, as a deduplicated list. -/
def sigWords (s : String) : List String :=
  ((pySplitWs s).dedup).filter (fun w => w ∉ stopwords)

/-- Python's `s.split(",")[0]`: the part of `s` before its first comma. -/
def beforeComma (s : String) : String :=
  ⟨s.data.takeWhile (fun c => c ≠ ',')⟩

/-- Python `addr.split(",")[0].strip().lower()`: the trimmed lowercased part of an
address before its first comma. -/
def firstCommaPart (s : String) : String := pyLower (pyStrip (beforeComma s))

/-- The geo-distance utility `OpportunityAnalyzer.calculate_distance`: `inf` (`⊤`) when any coordinate
is `None`, and any fault of the underlying `geodesic` call is caught and
mapped to `inf`. -/
def calculate_distance (geo : Geo) (lat1 lon1 lat2 lon2 : Option ℚ) : WithTop ℚ :=
  match lat1, lon1, lat2, lon2 with
  | some a, some b, some c, some d =>
    match geo a b c d with
    | .ok q => (q : WithTop ℚ)
    | .error _ => ⊤
  | _, _, _, _ => ⊤

/-- The loop body of `OpportunityAnalyzer.find_nearest_atm`: fold over the ATM
list carrying `(min_distance, nearest_operator)`, updating on strict `<` and
skipping ATMs whose latitude or longitude is falsy. -/
def findNearestAux (geo : Geo) (lat lon : Option ℚ) :
    List Atm → WithTop ℚ × Option String → WithTop ℚ × Option String
  | [], acc => acc
  | atm :: rest, acc =>
    if truthyQ atm.latitude && truthyQ atm.longitude then
      let d := calculate_distance geo lat lon atm.latitude atm.longitude
      if d < acc.1 then
        findNearestAux geo lat lon rest (d, some (atm.operator.getD "Unknown"))
      else
        findNearestAux geo lat lon rest acc
    else
      findNearestAux geo lat lon rest acc

/-- The finder `OpportunityAnalyzer.find_nearest_atm`, starting from
`(float('inf'), None)`. -/
def find_nearest_atm (geo : Geo) (atms : List Atm) (lat lon : Option ℚ) :
    WithTop ℚ × Option String :=
  findNearestAux geo lat lon atms (⊤, none)

/-- Matching rule 1 of `check_has_bitcoin_atm`: case-insensitive name
containment in either direction, both lowercased names non-empty. -/
def nameContainment (loc : Location) (atm : Atm) : Bool :=
  let ln := pyLower (strD loc.business_name)
  let an := pyLower (strD atm.location_name)
  ln ≠ "" && an ≠ "" && (substrB ln an || substrB an ln)

/-- Matching rule 2 of `check_has_bitcoin_atm`: both names non-empty, both
significant-word sets non-empty, and they share at least 2 words. -/
def sharedWords (loc : Location) (atm : Atm) : Bool :=
  let ln := pyLower (strD loc.business_name)
  let an := pyLower (strD atm.location_name)
  let lw := sigWords ln
  let aw := sigWords an
  ln ≠ "" && an ≠ "" && (!lw.isEmpty && !aw.isEmpty &&
    2 ≤ (lw.filter (fun w => w ∈ aw)).length)

/-- Matching rule 3 of `check_has_bitcoin_atm`: both addresses non-empty and
their non-empty first-comma parts (trimmed, lowercased) are equal. -/
def addressRule (loc : Location) (atm : Atm) : Bool :=
  let la := pyLower (strD loc.address)
  let aa := pyLower (strD atm.address)
  let lp := firstCommaPart la
  let ap := firstCommaPart aa
  la ≠ "" && aa ≠ "" && (lp ≠ "" && ap ≠ "" && lp == ap)

/-- Matching rule 4 of `check_has_bitcoin_atm`: all four coordinates truthy
and great-circle distance below 0.05 km. -/
def proximityRule (geo : Geo) (loc : Location) (atm : Atm) : Bool :=
  truthyQ loc.latitude && truthyQ loc.longitude &&
  truthyQ atm.latitude && truthyQ atm.longitude &&
  decide (calculate_distance geo loc.latitude loc.longitude
      atm.latitude atm.longitude < ((0.05 : ℚ) : WithTop ℚ))

/-- The identity resolver `OpportunityAnalyzer.check_has_bitcoin_atm`: scan the ATM list in order;
against each ATM try the four rules in order and return
`(True, atm.get("operator", "Unknown"))` at the first rule that fires;
`(False, None)` when no ATM matches. -/
def check_has_bitcoin_atm (geo : Geo) (atms : List Atm) (loc : Location) :
    Bool × Option String :=
  match atms with
  | [] => (false, none)
  | atm :: rest =>
    if nameContainment loc atm then (true, some (atm.operator.getD "Unknown"))
    else if sharedWords loc atm then (true, some (atm.operator.getD "Unknown"))
    else if addressRule loc atm then (true, some (atm.operator.getD "Unknown"))
    else if proximityRule geo loc atm then (true, some (atm.operator.getD "Unknown"))
    else check_has_bitcoin_atm geo rest loc

/-- The distance bucket of `calculate_opportunity_score` (0–40 points):
the `if/elif` ladder `inf→30; ≥3→40; ≥1→35; ≥0.5→25; ≥0.2→10; else→0`. -/
def distScore (d : WithTop ℚ) : ℕ :=
  if d = ⊤ then 30
  else if ((3 : ℚ) : WithTop ℚ) ≤ d then 40
  else if ((1 : ℚ) : WithTop ℚ) ≤ d then 35
  else if ((0.5 : ℚ) : WithTop ℚ) ≤ d then 25
  else if ((0.2 : ℚ) : WithTop ℚ) ≤ d then 10
  else 0

/-- The Google-rating bucket of `calculate_opportunity_score` (0–25 points);
a falsy rating (absent or `0.0`) scores the neutral 10. -/
def ratingScore (r : Option ℚ) : ℕ :=
  if truthyQ r then
    let v := r.getD 0
    if (4.5 : ℚ) ≤ v then 25
    else if (4 : ℚ) ≤ v then 20
    else if (3.5 : ℚ) ≤ v then 15
    else if (3 : ℚ) ≤ v then 10
    else 5
  else 10

/-- The `type_scores` table, in Python dict insertion order. -/
def typeScores : List (String × ℕ) :=
  [("gas station", 25), ("convenience store", 23), ("smoke shop", 20),
   ("liquor store", 18), ("bodega", 18), ("grocery", 15)]

/-- The business-type bucket of `calculate_opportunity_score` (0–25 points):
first table key contained in the lowercased business type wins, else 12. -/
def typeScore (businessType : String) : ℕ :=
  match typeScores.find? (fun p => substrB p.1 businessType) with
  | some p => p.2
  | none => 12

/-- The scorer `OpportunityAnalyzer.calculate_opportunity_score`: 0 when `has_atm`,
otherwise the four buckets summed and clamped to 100. -/
def calculate_opportunity_score (loc : Location) (has_atm : Bool)
    (distance_to_nearest : WithTop ℚ) : ℕ :=
  if has_atm then 0
  else
    min (distScore distance_to_nearest
      + ratingScore loc.google_rating
      + typeScore (pyLower (strD loc.business_type))
      + (if strD loc.phone ≠ "" then 10 else 0)) 100

/-- Round half to even (Python's `round` tie-breaking) to an integer. -/
def roundHalfEven (x : ℚ) : ℤ :=
  let n := ⌊x⌋
  let r := x - n
  if r < 1/2 then n
  else if 1/2 < r then n + 1
  else if n % 2 = 0 then n else n + 1

/-- Python `round(q, 2)`. -/
def pyRound2 (q : ℚ) : ℚ := (roundHalfEven (q * 100) : ℚ) / 100

/-- Python `round(distance_to_nearest, 2) if distance_to_nearest != float('inf') else None`. -/
def roundDist (d : WithTop ℚ) : Option ℚ :=
  if h : d = ⊤ then none else some (pyRound2 (d.untop h))

/-- One output record of `OpportunityAnalyzer.analyze` (the `opportunity`
dict built per candidate). -/
structure OpportunityRecord where
  business_name : String
  address : String
  phone : String
  business_type : String
  latitude : Option ℚ
  longitude : Option ℚ
  has_bitcoin_atm : Bool
  existing_atm_operator : String
  distance_to_nearest_atm : Option ℚ
  nearest_atm_operator : String
  google_rating : Option ℚ
  opportunity_score : ℕ
  status : String
  notes : String
  deriving DecidableEq, Repr

/-- The per-candidate body of `OpportunityAnalyzer.analyze`: identity
resolution, nearest-competitor search, scoring, record assembly. -/
def mkOpportunity (geo : Geo) (atms : List Atm) (loc : Location) :
    OpportunityRecord :=
  let lat := loc.latitude
  let lon := loc.longitude
  let ha := check_has_bitcoin_atm geo atms loc
  let nr := find_nearest_atm geo atms lat lon
  let score := calculate_opportunity_score loc ha.1 nr.1
  { business_name := strD loc.business_name
    address := strD loc.address
    phone := strD loc.phone
    business_type := strD loc.business_type
    latitude := lat
    longitude := lon
    has_bitcoin_atm := ha.1
    existing_atm_operator := (ha.2.getD "")
    distance_to_nearest_atm := roundDist nr.1
    nearest_atm_operator := nr.2.getD ""
    google_rating := loc.google_rating
    opportunity_score := score
    status := "not_contacted"
    notes := "" }

/-- The sort relation of `analyze`: score descending
(`sort(key=opportunity_score, reverse=True)`). -/
def recGE (a b : OpportunityRecord) : Prop :=
  b.opportunity_score ≤ a.opportunity_score

instance : DecidableRel recGE := fun a b =>
  inferInstanceAs (Decidable (b.opportunity_score ≤ a.opportunity_score))

instance : IsTotal OpportunityRecord recGE :=
  ⟨fun a b => (Nat.le_total b.opportunity_score a.opportunity_score)⟩

instance : IsTrans OpportunityRecord recGE :=
  ⟨fun _ _ _ hab hbc => Nat.le_trans hbc hab⟩

/-- The orchestrator `OpportunityAnalyzer.analyze`: one record per candidate in input order,
then a stable sort by score descending (Python's `list.sort` is stable;
`insertionSort` with the non-strict descending relation models it). -/
def analyze (geo : Geo) (locs : List Location) (atms : List Atm) :
    List OpportunityRecord :=
  List.insertionSort recGE (locs.map (mkOpportunity geo atms))

/-! ### Spec-side definitions -/

/-- The ordered rule list of the identity resolver, per the spec (§4.2) as
amended — name containment, shared significant words, street-level address
equality, proximity — in this fixed order. Rule 4 carries the code's
truthiness guard (all four coordinates present and nonzero), not §4.2's
literal "both locations have coordinates" (mere presence): the code rejects
0.0 coordinates, so the presence reading is refuted by
`proximity_presence_counterexample`. -/
def resolverRules (geo : Geo) : List (Location → Atm → Bool) :=
  [nameContainment, sharedWords, addressRule, proximityRule geo]

/-- The spec-side resolver (§4.2 as amended): scan ATMs in collection order
and stop at the first ATM for which some rule of `resolverRules` (tried in
rule order) fires — the ATM-major, rule-minor lexicographic first match —
returning that ATM's operator; `(false, none)` when no ATM matches under
any rule. -/
def specResolve (geo : Geo) (atms : List Atm) (loc : Location) :
    Bool × Option String :=
  match atms.find? (fun atm => (resolverRules geo).any (fun rule => rule loc atm)) with
  | some atm => (true, some (atm.operator.getD "Unknown"))
  | none => (false, none)

/-- Modelled from the spec (§4.3): the minimum distance over ATMs with usable
coordinates, keeping the first ATM achieving the minimum on exact ties, and
`(infinite, null)` when no usable finite distance exists. -/
def nearestSpec (geo : Geo) (lat lon : Option ℚ) :
    List Atm → WithTop ℚ × Option String
  | [] => (⊤, none)
  | atm :: rest =>
    let p := nearestSpec geo lat lon rest
    if truthyQ atm.latitude && truthyQ atm.longitude then
      let d := calculate_distance geo lat lon atm.latitude atm.longitude
      if d ≠ ⊤ ∧ d ≤ p.1 then (d, some (atm.operator.getD "Unknown")) else p
    else p

/-- A geodesic primitive that never faults. -/
def geoTotal (geo : Geo) : Prop := ∀ a b c d, ∃ q, geo a b c d = .ok q

/-! ### Concrete fixtures used by witnesses and counterexamples -/

/-- A concrete total geodesic stand-in (taxicab distance), used to evaluate
the development on explicit inputs. -/
def geoTest : Geo := fun a b c d => .ok (|a - c| + |b - d|)

/-- A geodesic stand-in that always faults. -/
def geoErr : Geo := fun _ _ _ _ => .error ()

/-- A candidate with a missing latitude (all other fields default). -/
def locMissingLat : Location := { longitude := some 1 }

/-- An ATM whose two coordinates are present and truthy. -/
def atmWithCoords : Atm :=
  { operator := some "Op", latitude := some 1, longitude := some 1 }

/-- A candidate with full data (the sample record of `analyzer.py`'s
`__main__` block, with rounded coordinates). -/
def locSample : Location :=
  { business_name := some "Test Gas Station"
    address := some "123 Main St, Miami, FL"
    phone := some "305-555-1234"
    business_type := some "Gas Station"
    latitude := some 25
    longitude := some (-80)
    google_rating := some (42/10) }

/-- An ATM with a zero latitude (present but falsy). -/
def atmZeroLat : Atm :=
  { operator := some "Z", latitude := some 0, longitude := some 2 }

/-- A candidate at latitude 0.0 (present as a number, but falsy), with no
name and no address. -/
def locZeroLat : Location := { latitude := some 0, longitude := some 1 }

/-- An ATM at exactly the same point as `locZeroLat` (distance 0 km), its
latitude 0.0 present as a number. -/
def atmAtZeroLat : Atm :=
  { operator := some "Op", latitude := some 0, longitude := some 1 }

/-! ### Helper lemmas -/

theorem pyLower_empty : pyLower "" = "" := rfl

/-! ### Claim theorems -/

/-- C1: `calculate_opportunity_score` returns 0 immediately when its
`has_atm` argument is true, regardless of distance, rating, category or
phone; so an identity-resolver match forces score 0. -/
theorem score_zero_of_competitor (loc : Location) (d : WithTop ℚ) :
    calculate_opportunity_score loc true d = 0 := rfl

/-- C4: the score returned by `calculate_opportunity_score` always lies in
the closed interval [0, 100], for every candidate, flag and distance. -/
theorem score_in_bounds (loc : Location) (has_atm : Bool) (d : WithTop ℚ) :
    0 ≤ calculate_opportunity_score loc has_atm d ∧
    calculate_opportunity_score loc has_atm d ≤ 100 := by
  refine ⟨Nat.zero_le _, ?_⟩
  cases has_atm with
  | false => exact min_le_right _ _
  | true => exact Nat.zero_le _

/-- C7: `calculate_distance` is total: when any of the four coordinates is
absent it returns the infinite sentinel, and when the underlying geodesic
computation faults it catches the fault and returns the infinite sentinel;
no error propagates to the caller. -/
theorem calculate_distance_total (geo : Geo) (lat1 lon1 lat2 lon2 : Option ℚ) :
    ((lat1 = none ∨ lon1 = none ∨ lat2 = none ∨ lon2 = none) →
      calculate_distance geo lat1 lon1 lat2 lon2 = ⊤) ∧
    (∀ a b c d, lat1 = some a → lon1 = some b → lat2 = some c → lon2 = some d →
      geo a b c d = .error () →
      calculate_distance geo lat1 lon1 lat2 lon2 = ⊤) := by
  constructor
  · intro h
    cases lat1 <;> cases lon1 <;> cases lat2 <;> cases lon2 <;>
      first | rfl | simp at h
  · rintro a b c d rfl rfl rfl rfl herr
    simp [calculate_distance, herr]

/-- Witness for C7 at concrete inputs: a missing coordinate and a faulting
geodesic both yield the infinite sentinel. -/
theorem calculate_distance_total_witness :
    calculate_distance geoTest none (some 1) (some 1) (some 1) = ⊤ ∧
    calculate_distance geoErr (some 1) (some 1) (some 1) (some 1) = ⊤ :=
  ⟨(calculate_distance_total geoTest none (some 1) (some 1) (some 1)).1 (Or.inl rfl),
   (calculate_distance_total geoErr (some 1) (some 1) (some 1) (some 1)).2
     1 1 1 1 rfl rfl rfl rfl rfl⟩

/-- C9: coordinate presence is decided by truthiness: an ATM whose latitude
or longitude equals 0.0 is skipped by the nearest-competitor finder exactly
as if the coordinate were absent, and the 50-meter proximity rule never
fires when any of the candidate's or the ATM's coordinates equals 0.0, even
though the coordinates are present as numbers. -/
theorem zero_coordinate_truthiness :
    (∀ (geo : Geo) (lat lon : Option ℚ) (a : Atm) (rest : List Atm),
      a.latitude = some 0 ∨ a.longitude = some 0 →
      find_nearest_atm geo (a :: rest) lat lon = find_nearest_atm geo rest lat lon) ∧
    (∀ (geo : Geo) (loc : Location) (a : Atm),
      loc.latitude = some 0 ∨ loc.longitude = some 0 ∨
        a.latitude = some 0 ∨ a.longitude = some 0 →
      proximityRule geo loc a = false) := by
  constructor
  · intro geo lat lon a rest h
    have hg : (truthyQ a.latitude && truthyQ a.longitude) = false := by
      rcases h with h | h <;> rw [h] <;> simp [truthyQ]
    simp [find_nearest_atm, findNearestAux, hg]
  · intro geo loc a h
    rcases h with h | h | h | h <;> rw [proximityRule, h] <;> simp [truthyQ]

/-- Witness for C9: an ATM at latitude 0 is skipped, and the proximity rule
rejects a candidate at longitude 0 next to an ATM at distance 0. -/
theorem zero_coordinate_truthiness_witness :
    find_nearest_atm geoTest [atmZeroLat, atmWithCoords] (some 1) (some 1) =
      find_nearest_atm geoTest [atmWithCoords] (some 1) (some 1) ∧
    proximityRule geoTest
      { business_name := some "A", latitude := some 1, longitude := some 0 }
      atmWithCoords = false :=
  ⟨(zero_coordinate_truthiness.1 geoTest (some 1) (some 1) atmZeroLat
      [atmWithCoords] (Or.inl rfl)),
   (zero_coordinate_truthiness.2 geoTest
      { business_name := some "A", latitude := some 1, longitude := some 0 }
      atmWithCoords (Or.inr (Or.inl rfl)))⟩

/-- C10: a candidate with an empty business name, an empty address, and a
missing latitude or longitude can never be identity-matched: all four rules
are skipped for every ATM and `check_has_bitcoin_atm` returns
`(false, none)` regardless of the ATM records. -/
theorem anonymous_candidate_never_matches (geo : Geo) (atms : List Atm)
    (loc : Location) (hn : strD loc.business_name = "")
    (ha : strD loc.address = "")
    (hc : loc.latitude = none ∨ loc.longitude = none) :
    check_has_bitcoin_atm geo atms loc = (false, none) := by
  induction atms with
  | nil => rfl
  | cons a rest ih =>
    have h1 : nameContainment loc a = false := by
      simp [nameContainment, hn, pyLower_empty]
    have h2 : sharedWords loc a = false := by
      simp [sharedWords, hn, pyLower_empty]
    have h3 : addressRule loc a = false := by
      simp [addressRule, ha, pyLower_empty]
    have h4 : proximityRule geo loc a = false := by
      rcases hc with hc | hc <;> rw [proximityRule, hc] <;> simp [truthyQ]
    simp [check_has_bitcoin_atm, h1, h2, h3, h4, ih]

/-- Witness for C10: a blank candidate is not matched even against an ATM
with full data. -/
theorem anonymous_candidate_never_matches_witness :
    check_has_bitcoin_atm geoTest
      [{ location_name := some "x", address := some "y, z",
         operator := some "Op", latitude := some 1, longitude := some 1 }]
      { latitude := some 1 } = (false, none) :=
  anonymous_candidate_never_matches geoTest _ _ rfl rfl (Or.inr rfl)

/-- C3 (amended): the identity resolver scans the ATM collection in order,
tries the four rules in the fixed order (name containment, shared
significant words, first-comma address equality, sub-50m proximity with all
four coordinates truthy — present and nonzero — rather than merely present)
against each ATM — all four rules against one ATM before moving to the
next — and returns `(true, operator)` at the first ATM/rule combination
that fires, or `(false, none)` when no ATM matches under any rule; i.e. it
coincides with the lexicographic first-match resolver `specResolve`. -/
theorem check_eq_specResolve (geo : Geo) (atms : List Atm) (loc : Location) :
    check_has_bitcoin_atm geo atms loc = specResolve geo atms loc := by
  induction atms with
  | nil => rfl
  | cons a rest ih =>
    have hany : ((resolverRules geo).any (fun rule => rule loc a)) =
        (nameContainment loc a || sharedWords loc a || addressRule loc a ||
          proximityRule geo loc a) := by
      simp [resolverRules, Bool.or_assoc]
    by_cases h : (nameContainment loc a || sharedWords loc a ||
        addressRule loc a || proximityRule geo loc a) = true
    · have hfind : specResolve geo (a :: rest) loc =
          (true, some (a.operator.getD "Unknown")) := by
        rw [specResolve, List.find?_cons_of_pos _ (by rw [hany]; exact h)]
      rw [hfind, check_has_bitcoin_atm]
      rcases Bool.or_eq_true_iff.mp h with h' | h4
      · rcases Bool.or_eq_true_iff.mp h' with h'' | h3
        · rcases Bool.or_eq_true_iff.mp h'' with h1 | h2
          · rw [if_pos h1]
          · rw [h2]; split <;> rfl
        · rw [h3]; split <;> [rfl; (split <;> rfl)]
      · rw [h4]; split <;> [rfl; (split <;> [rfl; (split <;> rfl)])]
    · have h1 : nameContainment loc a = false := by
        revert h; cases nameContainment loc a <;> simp
      have h2 : sharedWords loc a = false := by
        revert h; cases sharedWords loc a <;> simp
      have h3 : addressRule loc a = false := by
        revert h; cases addressRule loc a <;> simp
      have h4 : proximityRule geo loc a = false := by
        revert h; cases proximityRule geo loc a <;> simp
      have hfind : specResolve geo (a :: rest) loc = specResolve geo rest loc := by
        unfold specResolve
        rw [List.find?_cons_of_neg _ (by rw [hany, h1, h2, h3, h4]; decide)]
      rw [hfind, check_has_bitcoin_atm, if_neg (by rw [h1]; exact fun hh => nomatch hh),
        if_neg (by rw [h2]; exact fun hh => nomatch hh),
        if_neg (by rw [h3]; exact fun hh => nomatch hh),
        if_neg (by rw [h4]; exact fun hh => nomatch hh), ih]

/-- C3 counterexample: the candidate at latitude 0.0 sits at distance 0 km
(below 0.05 km) from an ATM, all four coordinates present as numbers and no
other rule applicable, yet the resolver returns `(false, none)` — the
proximity guard tests truthiness, so 0.0 coordinates never fire it. Under
the frozen claim's rule 4 ("distance below 0.05 km with all four
coordinates present") the resolver would have returned `(true, some "Op")`,
refuting the claim as stated. -/
theorem proximity_presence_counterexample :
    check_has_bitcoin_atm geoTest [atmAtZeroLat] locZeroLat = (false, none) ∧
    locZeroLat.latitude.isSome = true ∧ locZeroLat.longitude.isSome = true ∧
    atmAtZeroLat.latitude.isSome = true ∧ atmAtZeroLat.longitude.isSome = true ∧
    calculate_distance geoTest locZeroLat.latitude locZeroLat.longitude
      atmAtZeroLat.latitude atmAtZeroLat.longitude < ((0.05 : ℚ) : WithTop ℚ) := by
  refine ⟨by decide, rfl, rfl, rfl, rfl, ?_⟩
  have hd : calculate_distance geoTest locZeroLat.latitude locZeroLat.longitude
      atmAtZeroLat.latitude atmAtZeroLat.longitude =
      ((|0 - 0| + |1 - 1| : ℚ) : WithTop ℚ) := rfl
  rw [hd, WithTop.coe_lt_coe]
  norm_num

theorem findNearestAux_eq (geo : Geo) (lat lon : Option ℚ) (l : List Atm)
    (acc : WithTop ℚ × Option String) :
    findNearestAux geo lat lon l acc =
      if (nearestSpec geo lat lon l).1 < acc.1 then nearestSpec geo lat lon l
      else acc := by
  induction l generalizing acc with
  | nil =>
    simp [findNearestAux, nearestSpec, not_top_lt]
  | cons a rest ih =>
    by_cases hg : (truthyQ a.latitude && truthyQ a.longitude) = true
    · simp only [findNearestAux, nearestSpec, hg, if_true]
      set P := nearestSpec geo lat lon rest with hP
      set d := calculate_distance geo lat lon a.latitude a.longitude with hd
      rw [ih ((d, some (a.operator.getD "Unknown"))), ih acc]
      by_cases hS : d ≠ ⊤ ∧ d ≤ P.1
      · rw [if_pos hS]
        by_cases hda : d < acc.1
        · rw [if_pos (show ((d : WithTop ℚ), some (a.operator.getD "Unknown")).1 < acc.1 from hda),
            if_neg (not_lt.mpr hS.2), if_pos hda]
        · rw [if_neg (show ¬((d : WithTop ℚ), some (a.operator.getD "Unknown")).1 < acc.1 from hda),
            if_neg hda,
            if_neg (not_lt.mpr (le_trans (not_lt.mp hda) hS.2))]
      · rw [if_neg hS]
        by_cases hda : d < acc.1
        · have hdt : d ≠ ⊤ := ne_top_of_lt hda
          have hPd : P.1 < d := by
            rcases not_and_or.mp hS with h | h
            · exact absurd hdt (by simpa using h)
            · exact not_le.mp h
          rw [if_pos hda, if_pos hPd, if_pos (lt_trans hPd hda)]
        · rw [if_neg hda]
    · simp only [findNearestAux, nearestSpec, hg, if_false]
      exact ih acc

theorem calc_dist_none (geo : Geo) {lat lon : Option ℚ} (a b : Option ℚ)
    (h : lat = none ∨ lon = none) : calculate_distance geo lat lon a b = ⊤ := by
  cases lat <;> cases lon <;> cases a <;> cases b <;> first | rfl | simp at h

theorem nearestSpec_fst_top (geo : Geo) (lat lon : Option ℚ) (l : List Atm)
    (h : (nearestSpec geo lat lon l).1 = ⊤) :
    nearestSpec geo lat lon l = (⊤, none) := by
  induction l with
  | nil => rfl
  | cons a rest ih =>
    by_cases hg : (truthyQ a.latitude && truthyQ a.longitude) = true <;>
      simp only [nearestSpec, hg, if_true, if_false] at h ⊢
    · by_cases hS : (calculate_distance geo lat lon a.latitude a.longitude ≠ ⊤ ∧
          calculate_distance geo lat lon a.latitude a.longitude ≤
            (nearestSpec geo lat lon rest).1)
      · rw [if_pos hS] at h ⊢
        exact absurd h hS.1
      · rw [if_neg hS] at h ⊢
        exact ih h
    · exact ih h

theorem find_nearest_eq_spec (geo : Geo) (atms : List Atm) (lat lon : Option ℚ) :
    find_nearest_atm geo atms lat lon = nearestSpec geo lat lon atms := by
  rw [find_nearest_atm, findNearestAux_eq]
  by_cases h : (nearestSpec geo lat lon atms).1 = ⊤
  · rw [if_neg (by rw [h]; exact not_top_lt)]
    exact (nearestSpec_fst_top _ _ _ _ h).symm
  · rw [if_pos (lt_top_iff_ne_top.mpr h)]

theorem nearestSpec_none_coord (geo : Geo) {lat lon : Option ℚ}
    (h : lat = none ∨ lon = none) (l : List Atm) :
    nearestSpec geo lat lon l = (⊤, none) := by
  induction l with
  | nil => rfl
  | cons a rest ih =>
    by_cases hg : (truthyQ a.latitude && truthyQ a.longitude) = true <;>
      simp only [nearestSpec, hg, if_true, if_false]
    · rw [if_neg (fun hc => hc.1 (calc_dist_none geo _ _ h)), ih]
    · exact ih

theorem nearestSpec_no_usable (geo : Geo) (lat lon : Option ℚ) (l : List Atm)
    (h : ∀ a ∈ l, (truthyQ a.latitude && truthyQ a.longitude) = false) :
    nearestSpec geo lat lon l = (⊤, none) := by
  induction l with
  | nil => rfl
  | cons a rest ih =>
    have hg : ¬((truthyQ a.latitude && truthyQ a.longitude) = true) := by
      rw [h a (List.mem_cons_self a rest)]; exact Bool.false_ne_true
    simp only [nearestSpec, hg, if_false]
    exact ih (fun b hb => h b (List.mem_cons_of_mem a hb))

/-- C6: the nearest-competitor finder equals the spec-side `nearestSpec`
(minimum distance over ATMs with usable coordinates, first ATM achieving the
minimum kept on exact ties because updates use strict `<`); ATMs lacking
truthy coordinates are skipped; and it returns `(infinite, null)` when the
candidate lacks a coordinate or when no ATM has usable coordinates. -/
theorem find_nearest_characterization :
    (∀ (geo : Geo) (atms : List Atm) (lat lon : Option ℚ),
      find_nearest_atm geo atms lat lon = nearestSpec geo lat lon atms) ∧
    (∀ (geo : Geo) (a : Atm) (rest : List Atm) (lat lon : Option ℚ),
      (truthyQ a.latitude && truthyQ a.longitude) = false →
      find_nearest_atm geo (a :: rest) lat lon = find_nearest_atm geo rest lat lon) ∧
    (∀ (geo : Geo) (atms : List Atm) (lat lon : Option ℚ),
      lat = none ∨ lon = none → find_nearest_atm geo atms lat lon = (⊤, none)) ∧
    (∀ (geo : Geo) (atms : List Atm) (lat lon : Option ℚ),
      (∀ a ∈ atms, (truthyQ a.latitude && truthyQ a.longitude) = false) →
      find_nearest_atm geo atms lat lon = (⊤, none)) := by
  refine ⟨find_nearest_eq_spec, ?_, ?_, ?_⟩
  · intro geo a rest lat lon hg
    have hg' : ¬((truthyQ a.latitude && truthyQ a.longitude) = true) := by
      rw [hg]; exact Bool.false_ne_true
    simp only [find_nearest_atm, findNearestAux, hg', if_false]
    rfl
  · intro geo atms lat lon h
    rw [find_nearest_eq_spec, nearestSpec_none_coord geo h]
  · intro geo atms lat lon h
    rw [find_nearest_eq_spec, nearestSpec_no_usable geo lat lon atms h]

/-- Witness for C6: skipping a zero-coordinate ATM, a candidate without a
latitude, and an ATM set without usable coordinates, all at concrete
inputs. -/
theorem find_nearest_characterization_witness :
    find_nearest_atm geoTest [atmZeroLat, atmWithCoords] (some 2) (some 2) =
      find_nearest_atm geoTest [atmWithCoords] (some 2) (some 2) ∧
    find_nearest_atm geoTest [atmWithCoords] none (some 2) = (⊤, none) ∧
    find_nearest_atm geoTest [atmZeroLat] (some 2) (some 2) = (⊤, none) :=
  ⟨find_nearest_characterization.2.1 geoTest atmZeroLat [atmWithCoords]
      (some 2) (some 2) (by decide),
   find_nearest_characterization.2.2.1 geoTest [atmWithCoords] none (some 2)
      (Or.inl rfl),
   find_nearest_characterization.2.2.2 geoTest [atmZeroLat] (some 2) (some 2)
      (by decide)⟩

theorem distScore_coe (q : ℚ) : distScore (q : WithTop ℚ) =
    (if 3 ≤ q then 40 else if 1 ≤ q then 35 else if (0.5 : ℚ) ≤ q then 25
     else if (0.2 : ℚ) ≤ q then 10 else 0) := by
  rw [distScore]
  simp only [WithTop.coe_ne_top, if_false, WithTop.coe_le_coe]

theorem distScore_mono {q r : ℚ} (h : q ≤ r) :
    distScore (q : WithTop ℚ) ≤ distScore (r : WithTop ℚ) := by
  rw [distScore_coe, distScore_coe]
  split_ifs <;> first | omega | linarith

/-- C8: with `has_competitor` false and rating, category and phone fixed, the
score is monotone non-decreasing in the (finite) nearest distance, the
distance bucket follows the descending threshold ladder
`{≥3 → 40, ≥1 → 35, ≥0.5 → 25, ≥0.2 → 10, <0.2 → 0}` with first matching
threshold winning, and the infinite-distance case contributes exactly 30
points, strictly between the ≥0.5 bucket's 25 and the ≥1 bucket's 35. -/
theorem distance_bucket_behavior :
    (∀ (loc : Location) (q r : ℚ), q ≤ r →
      calculate_opportunity_score loc false (q : WithTop ℚ) ≤
        calculate_opportunity_score loc false (r : WithTop ℚ)) ∧
    distScore ⊤ = 30 ∧
    (∀ q : ℚ, 3 ≤ q → distScore (q : WithTop ℚ) = 40) ∧
    (∀ q : ℚ, 1 ≤ q → q < 3 → distScore (q : WithTop ℚ) = 35) ∧
    (∀ q : ℚ, (0.5 : ℚ) ≤ q → q < 1 → distScore (q : WithTop ℚ) = 25) ∧
    (∀ q : ℚ, (0.2 : ℚ) ≤ q → q < (0.5 : ℚ) → distScore (q : WithTop ℚ) = 10) ∧
    (∀ q : ℚ, 0 ≤ q → q < (0.2 : ℚ) → distScore (q : WithTop ℚ) = 0) ∧
    (∀ q : ℚ, (0.5 : ℚ) ≤ q → q < 1 →
      distScore (q : WithTop ℚ) < distScore (⊤ : WithTop ℚ)) ∧
    (∀ q : ℚ, 1 ≤ q → distScore (⊤ : WithTop ℚ) < distScore (q : WithTop ℚ)) := by
  have htop : distScore (⊤ : WithTop ℚ) = 30 := by simp [distScore]
  refine ⟨?_, htop, ?_, ?_, ?_, ?_, ?_, ?_, ?_⟩
  · intro loc q r h
    rw [calculate_opportunity_score, calculate_opportunity_score]
    simp only [Bool.false_eq_true, if_false]
    exact min_le_min
      (Nat.add_le_add_right (Nat.add_le_add_right
        (Nat.add_le_add_right (distScore_mono h) _) _) _) le_rfl
  · intro q h; rw [distScore_coe]; split_ifs; omega
  · intro q h1 h2; rw [distScore_coe]; split_ifs <;> first | omega | linarith
  · intro q h1 h2; rw [distScore_coe]; split_ifs <;> first | omega | linarith
  · intro q h1 h2; rw [distScore_coe]; split_ifs <;> first | omega | linarith
  · intro q h1 h2; rw [distScore_coe]; split_ifs <;> first | omega | linarith
  · intro q h1 h2; rw [htop, distScore_coe]; split_ifs <;> first | omega | linarith
  · intro q h; rw [htop, distScore_coe]; split_ifs <;> omega

/-- Witness for C8 at concrete inputs: monotonicity between 1 km and 4 km,
and the 35-point bucket at 2 km. -/
theorem distance_bucket_behavior_witness :
    calculate_opportunity_score {} false ((1 : ℚ) : WithTop ℚ) ≤
      calculate_opportunity_score {} false ((4 : ℚ) : WithTop ℚ) ∧
    distScore ((2 : ℚ) : WithTop ℚ) = 35 :=
  ⟨distance_bucket_behavior.1 {} 1 4 (by norm_num),
   distance_bucket_behavior.2.2.2.1 2 (by norm_num) (by norm_num)⟩

theorem filter_orderedInsert_pos (s : ℕ) (a : OpportunityRecord)
    (l : List OpportunityRecord) (ha : a.opportunity_score = s) :
    (List.orderedInsert recGE a l).filter (fun x => x.opportunity_score == s) =
      a :: l.filter (fun x => x.opportunity_score == s) := by
  induction l with
  | nil => simp [List.orderedInsert, ha]
  | cons b t ih =>
    rw [List.orderedInsert]
    by_cases h : recGE a b
    · rw [if_pos h]
      simp [List.filter_cons, ha]
    · rw [if_neg h]
      have hb : (b.opportunity_score == s) = false := by
        rw [beq_eq_false_iff_ne]
        intro hbs
        exact h (le_of_eq (by rw [hbs, ha]))
      simp [List.filter_cons, hb, ih]

theorem filter_orderedInsert_neg (s : ℕ) (a : OpportunityRecord)
    (l : List OpportunityRecord) (ha : a.opportunity_score ≠ s) :
    (List.orderedInsert recGE a l).filter (fun x => x.opportunity_score == s) =
      l.filter (fun x => x.opportunity_score == s) := by
  induction l with
  | nil => simp [List.orderedInsert, ha]
  | cons b t ih =>
    rw [List.orderedInsert]
    by_cases h : recGE a b
    · rw [if_pos h]
      simp [List.filter_cons, ha]
    · rw [if_neg h]
      simp [List.filter_cons, ih]

theorem insertionSort_filter (s : ℕ) (l : List OpportunityRecord) :
    (List.insertionSort recGE l).filter (fun x => x.opportunity_score == s) =
      l.filter (fun x => x.opportunity_score == s) := by
  induction l with
  | nil => rfl
  | cons a t ih =>
    rw [List.insertionSort]
    by_cases h : a.opportunity_score = s
    · rw [filter_orderedInsert_pos s a _ h, ih]
      simp [List.filter_cons, h]
    · rw [filter_orderedInsert_neg s a _ h, ih]
      simp [List.filter_cons, h]

/-- C5: `analyze` produces exactly one record per input candidate (the output
is a permutation of the per-candidate records, so the length is preserved
even on empty input), sorted by score descending, and stably so: for every
score value, the records carrying that score appear in the same order as the
corresponding candidates in the input. -/
theorem analyze_complete_sorted_stable (geo : Geo) (locs : List Location)
    (atms : List Atm) :
    (analyze geo locs atms).length = locs.length ∧
    (analyze geo locs atms).Perm (locs.map (mkOpportunity geo atms)) ∧
    List.Sorted recGE (analyze geo locs atms) ∧
    (∀ s : ℕ, (analyze geo locs atms).filter (fun r => r.opportunity_score == s) =
      (locs.map (mkOpportunity geo atms)).filter (fun r => r.opportunity_score == s)) := by
  refine ⟨?_, ?_, ?_, ?_⟩
  · rw [analyze, List.length_insertionSort, List.length_map]
  · exact List.perm_insertionSort recGE _
  · exact List.sorted_insertionSort recGE _
  · intro s
    exact insertionSort_filter s _

theorem nearestSpec_fst_le (geo : Geo) (lat lon : Option ℚ) (l : List Atm) :
    ∀ a ∈ l, (truthyQ a.latitude && truthyQ a.longitude) = true →
      (nearestSpec geo lat lon l).1 ≤
        calculate_distance geo lat lon a.latitude a.longitude := by
  induction l with
  | nil => intro a ha; exact absurd ha (List.not_mem_nil a)
  | cons b t ih =>
    intro a ha hu
    rcases List.mem_cons.mp ha with rfl | hat
    · simp only [nearestSpec, hu, if_true]
      by_cases hS : (calculate_distance geo lat lon a.latitude a.longitude ≠ ⊤ ∧
          calculate_distance geo lat lon a.latitude a.longitude ≤
            (nearestSpec geo lat lon t).1)
      · rw [if_pos hS]
      · rw [if_neg hS]
        rcases not_and_or.mp hS with h | h
        · have hdt : calculate_distance geo lat lon a.latitude a.longitude = ⊤ := by
            simpa using h
          rw [hdt]
          exact le_top
        · exact le_of_lt (not_le.mp h)
    · have hle : (nearestSpec geo lat lon (b :: t)).1 ≤ (nearestSpec geo lat lon t).1 := by
        by_cases hg : (truthyQ b.latitude && truthyQ b.longitude) = true
        · simp only [nearestSpec, hg, if_true]
          by_cases hS : (calculate_distance geo lat lon b.latitude b.longitude ≠ ⊤ ∧
              calculate_distance geo lat lon b.latitude b.longitude ≤
                (nearestSpec geo lat lon t).1)
          · rw [if_pos hS]
            exact hS.2
          · rw [if_neg hS]
        · simp only [nearestSpec, hg, Bool.false_eq_true, if_false]
          exact le_rfl
      exact le_trans hle (ih a hat hu)

theorem nearestSpec_achieved (geo : Geo) (lat lon : Option ℚ) (l : List Atm)
    (h : (nearestSpec geo lat lon l).1 ≠ ⊤) :
    ∃ a ∈ l, (truthyQ a.latitude && truthyQ a.longitude) = true ∧
      calculate_distance geo lat lon a.latitude a.longitude =
        (nearestSpec geo lat lon l).1 := by
  induction l with
  | nil => exact absurd rfl h
  | cons b t ih =>
    by_cases hg : (truthyQ b.latitude && truthyQ b.longitude) = true
    · simp only [nearestSpec, hg, if_true] at h ⊢
      by_cases hS : (calculate_distance geo lat lon b.latitude b.longitude ≠ ⊤ ∧
          calculate_distance geo lat lon b.latitude b.longitude ≤
            (nearestSpec geo lat lon t).1)
      · rw [if_pos hS] at h ⊢
        exact ⟨b, List.mem_cons_self b t, hg, rfl⟩
      · rw [if_neg hS] at h ⊢
        obtain ⟨a, hat, hu, hd⟩ := ih h
        exact ⟨a, List.mem_cons_of_mem b hat, hu, hd⟩
    · simp only [nearestSpec, hg, if_false] at h ⊢
      obtain ⟨a, hat, hu, hd⟩ := ih h
      exact ⟨a, List.mem_cons_of_mem b hat, hu, hd⟩

theorem calc_dist_ne_top (geo : Geo) (hgeo : geoTotal geo) {la lo : ℚ}
    {alat alon : Option ℚ} (h1 : truthyQ alat = true) (h2 : truthyQ alon = true) :
    calculate_distance geo (some la) (some lo) alat alon ≠ ⊤ := by
  cases alat with
  | none => simp [truthyQ] at h1
  | some x =>
    cases alon with
    | none => simp [truthyQ] at h2
    | some y =>
      obtain ⟨q, hq⟩ := hgeo la lo x y
      simp [calculate_distance, hq]

theorem roundDist_eq_none_iff (d : WithTop ℚ) : roundDist d = none ↔ d = ⊤ := by
  rw [roundDist]
  split_ifs with h
  · simp [h]
  · simp [h]

theorem roundDist_coe (q : ℚ) : roundDist (q : WithTop ℚ) = some (pyRound2 q) := by
  rw [roundDist, dif_neg WithTop.coe_ne_top, WithTop.untop_coe]

theorem nearestSpec_fst_top_of_all (geo : Geo) (lat lon : Option ℚ) (l : List Atm) :
    (∀ a ∈ l, (truthyQ a.latitude && truthyQ a.longitude) = true →
      calculate_distance geo lat lon a.latitude a.longitude = ⊤) →
    (nearestSpec geo lat lon l).1 = ⊤ := by
  induction l with
  | nil => intro _; rfl
  | cons b t ih =>
    intro h
    by_cases hg : (truthyQ b.latitude && truthyQ b.longitude) = true
    · simp only [nearestSpec, hg, if_true]
      rw [if_neg (fun hc => hc.1 (h b (List.mem_cons_self b t) hg))]
      exact ih (fun a hat hu => h a (List.mem_cons_of_mem b hat) hu)
    · simp only [nearestSpec, hg, Bool.false_eq_true, if_false]
      exact ih (fun a hat hu => h a (List.mem_cons_of_mem b hat) hu)

/-- C2 counterexample: for the candidate with a missing latitude and a single
ATM whose two coordinates are both present, `analyze` reports
`nearest_distance_km = null` even though an ATM in the full set has both
coordinates present — refuting "null only when no ATM in the full set has
both coordinates present". -/
theorem nearest_distance_null_counterexample :
    (analyze geoTest [locMissingLat] [atmWithCoords]).map
        (fun r => r.distance_to_nearest_atm) = [none] ∧
    atmWithCoords.latitude.isSome = true ∧ atmWithCoords.longitude.isSome = true := by
  decide

/-- C2 (amended): for a non-faulting geodesic primitive, the output field
`distance_to_nearest_atm` is null exactly when the candidate lacks a
latitude or longitude or when no ATM has truthy (present and nonzero)
coordinates; in every other case it equals the minimum great-circle
distance from the candidate to the ATMs with truthy coordinates (including
identity-matched ones), rounded to 2 decimal places. -/
theorem nearest_distance_field_characterization (geo : Geo) (hgeo : geoTotal geo)
    (atms : List Atm) (loc : Location) :
    ((mkOpportunity geo atms loc).distance_to_nearest_atm = none ↔
      (loc.latitude = none ∨ loc.longitude = none ∨
        ∀ a ∈ atms, (truthyQ a.latitude && truthyQ a.longitude) = false)) ∧
    (∀ q : ℚ,
      (find_nearest_atm geo atms loc.latitude loc.longitude).1 = (q : WithTop ℚ) →
      (mkOpportunity geo atms loc).distance_to_nearest_atm = some (pyRound2 q) ∧
      (∀ a ∈ atms, (truthyQ a.latitude && truthyQ a.longitude) = true →
        (q : WithTop ℚ) ≤
          calculate_distance geo loc.latitude loc.longitude a.latitude a.longitude) ∧
      (∃ a ∈ atms, (truthyQ a.latitude && truthyQ a.longitude) = true ∧
        calculate_distance geo loc.latitude loc.longitude a.latitude a.longitude =
          (q : WithTop ℚ))) := by
  have hfield : (mkOpportunity geo atms loc).distance_to_nearest_atm =
      roundDist (find_nearest_atm geo atms loc.latitude loc.longitude).1 := rfl
  constructor
  · rw [hfield, roundDist_eq_none_iff, find_nearest_eq_spec]
    constructor
    · intro htop
      cases hl1 : loc.latitude with
      | none => exact Or.inl rfl
      | some la =>
        cases hl2 : loc.longitude with
        | none => exact Or.inr (Or.inl rfl)
        | some lo =>
          refine Or.inr (Or.inr (fun a ha => ?_))
          cases hguard : (truthyQ a.latitude && truthyQ a.longitude) with
          | false => rfl
          | true =>
            have hle := nearestSpec_fst_le geo loc.latitude loc.longitude atms a ha hguard
            rw [htop] at hle
            have hd := top_le_iff.mp hle
            rw [hl1, hl2] at hd
            have h1 : truthyQ a.latitude = true := (Bool.and_eq_true _ _).mp hguard |>.1
            have h2 : truthyQ a.longitude = true := (Bool.and_eq_true _ _).mp hguard |>.2
            exact absurd hd (calc_dist_ne_top geo hgeo h1 h2)
    · intro h
      rcases h with h | h | h
      · rw [nearestSpec_none_coord geo (Or.inl h)]
      · rw [nearestSpec_none_coord geo (Or.inr h)]
      · rw [nearestSpec_no_usable geo _ _ atms h]
  · intro q hq
    have hq' : (nearestSpec geo loc.latitude loc.longitude atms).1 = (q : WithTop ℚ) := by
      rw [← find_nearest_eq_spec]
      exact hq
    refine ⟨?_, ?_, ?_⟩
    · rw [hfield, find_nearest_eq_spec, hq', roundDist_coe]
    · intro a ha hu
      have hle := nearestSpec_fst_le geo loc.latitude loc.longitude atms a ha hu
      rw [hq'] at hle
      exact hle
    · have hne : (nearestSpec geo loc.latitude loc.longitude atms).1 ≠ ⊤ := by
        rw [hq']
        exact WithTop.coe_ne_top
      obtain ⟨a, ha, hu, hd⟩ := nearestSpec_achieved geo loc.latitude loc.longitude atms hne
      exact ⟨a, ha, hu, by rw [hd, hq']⟩

/-- Witness for the amended C2 at concrete inputs: the sample candidate and
one ATM with truthy coordinates, whose taxicab-model distance is 105 km. -/
theorem nearest_distance_field_characterization_witness :
    ((mkOpportunity geoTest [atmWithCoords] locSample).distance_to_nearest_atm = none ↔
      (locSample.latitude = none ∨ locSample.longitude = none ∨
        ∀ a ∈ [atmWithCoords], (truthyQ a.latitude && truthyQ a.longitude) = false)) ∧
    (mkOpportunity geoTest [atmWithCoords] locSample).distance_to_nearest_atm =
      some (pyRound2 105) :=
  ⟨(nearest_distance_field_characterization geoTest (fun a b c d => ⟨_, rfl⟩)
      [atmWithCoords] locSample).1,
   ((nearest_distance_field_characterization geoTest (fun a b c d => ⟨_, rfl⟩)
      [atmWithCoords] locSample).2 105 (by
        simp only [find_nearest_atm, findNearestAux, locSample, atmWithCoords,
          geoTest, calculate_distance, truthyQ]
        norm_num [WithTop.coe_lt_top]
        split_ifs with h
        · rfl
        · exact absurd (WithTop.coe_lt_top (105 : ℚ)) h)).1⟩
